import Mathlib

/-!
Shallow embedding of the query-intent pipeline of the jira-agentic-ai
repository.

Embedded code, by source file:
* `src/src/agent/query_parser.py` — the dynamic time patterns and their
  handlers (`_get_dynamic_time_patterns`, `_parse_quarter`,
  `_parse_year_month`, `_parse_month`, the relative-date handlers,
  `_parse_specific_year`, `_extract_time_range`), the keyword-condition
  builder `generate_flexible_keyword_conditions`, and the primary (LLM)
  path of `NaturalLanguageQueryParser.parse`.
* `src/src/agent/jql_generator.py` — `JQLGenerator.generate_variations`.
* `src/web_interface.py` — deduplication, `smart_sort`, and the LLM
  relevance pass of `JiraAgenticAI.process_query`.

Conventions: Python exceptions are modelled with `Except PyErr`; the
current instant (`datetime.now()` / `arrow.now()`) is a `Clock`
parameter; the LLM completion collaborator is an oracle parameter
(its decoded output is a plain value, its failure a dedicated case).
-/

/-- Runtime exceptions of the embedded Python code. -/
inductive PyErr where
  | typeError
  | attributeError
  | valueError
  | keyError
  deriving DecidableEq, Repr

/-! ### Character and string helpers

These model the Python `str` methods used by the source on the ASCII
range; characters outside the ASCII letters (digits, punctuation, CJK)
are left unchanged, exactly as Python leaves them unchanged. -/

/-- ASCII test used by the title-case model. -/
def isAsciiAlpha (c : Char) : Bool :=
  decide (('a' ≤ c ∧ c ≤ 'z') ∨ ('A' ≤ c ∧ c ≤ 'Z'))

/-- Model of `str.lower` on one character (ASCII range). -/
def pyLowerChar (c : Char) : Char :=
  if 'A' ≤ c ∧ c ≤ 'Z' then Char.ofNat (c.toNat + 32) else c

/-- Model of `str.upper` on one character (ASCII range). -/
def pyUpperChar (c : Char) : Char :=
  if 'a' ≤ c ∧ c ≤ 'z' then Char.ofNat (c.toNat - 32) else c

/-- Model of Python `str.lower`. -/
def pyLower (s : String) : String := ⟨s.data.map pyLowerChar⟩

/-- Model of Python `str.upper`. -/
def pyUpper (s : String) : String := ⟨s.data.map pyUpperChar⟩

/-- Model of Python `str.capitalize`: first character upper-cased, the
rest lower-cased. -/
def pyCapitalize (s : String) : String :=
  match s.data with
  | [] => ""
  | c :: t => ⟨pyUpperChar c :: t.map pyLowerChar⟩

/-- Worker for `pyTitle`; the flag records whether the preceding
character was a letter. -/
def pyTitleGo : Bool → List Char → List Char
  | _, [] => []
  | prev, c :: t =>
    (if isAsciiAlpha c then (if prev then pyLowerChar c else pyUpperChar c) else c)
      :: pyTitleGo (isAsciiAlpha c) t

/-- Model of Python `str.title`: a letter that follows a non-letter is
upper-cased, every other letter is lower-cased. -/
def pyTitle (s : String) : String := ⟨pyTitleGo false s.data⟩

/-- Boolean test that `needle` is a contiguous run at the head of
`hay`. -/
def prefixOfB : List Char → List Char → Bool
  | [], _ => true
  | _ :: _, [] => false
  | n :: nt, h :: ht => decide (n = h) && prefixOfB nt ht

/-- Worker for `containsSub`. -/
def infixOfB (needle : List Char) : List Char → Bool
  | [] => prefixOfB needle []
  | h :: t => prefixOfB needle (h :: t) || infixOfB needle t

/-- Model of the Python substring test `needle in hay`. -/
def containsSub (hay needle : String) : Bool := infixOfB needle.data hay.data

/-- Model of Python `str.split()` with no argument (for the inputs in
play: split on spaces, dropping empty chunks). -/
def pySplit (s : String) : List String :=
  (s.split (fun c => c = ' ')).filter (fun w => w ≠ "")

/-- Deduplication keeping the first occurrence of each element. The
source materialises a Python `set`, whose iteration order is
unspecified; every theorem below is insensitive to the order chosen, so
the embedding fixes first-insertion order. -/
def dedupFirstAux (seen : List String) : List String → List String
  | [] => []
  | a :: t => if a ∈ seen then dedupFirstAux seen t else a :: dedupFirstAux (a :: seen) t

/-- Entry point of the ordered-set model (see `dedupFirstAux`). -/
def dedupFirst (l : List String) : List String := dedupFirstAux [] l

/-! ### Calendar helpers (model of the `arrow` / `datetime` formatting) -/

/-- Gregorian leap-year test. -/
def isLeapYear (y : Nat) : Bool :=
  (y % 4 = 0 && y % 100 ≠ 0) || y % 400 = 0

/-- Days in a month, used for the month-ceiling of `arrow`. -/
def daysInMonth (y m : Nat) : Nat :=
  match m with
  | 2 => if isLeapYear y then 29 else 28
  | 4 | 6 | 9 | 11 => 30
  | _ => 31

/-- Two-digit zero padding, the `{n:02d}` format of the source. -/
def pad2 (n : Nat) : String :=
  if n < 10 then "0" ++ toString n else toString n

/-- Date in the `YYYY-MM-DD` form used throughout the source. -/
def fmtDate (y m d : Nat) : String :=
  toString y ++ "-" ++ pad2 m ++ "-" ++ pad2 d

/-- The evaluation instant: the `datetime.now()` / `arrow.now()` of the
process, plus the Monday-based week boundaries that the source obtains
from the external `arrow` library (`floor('week')` / `ceil('week')`). -/
structure Clock where
  year : Nat
  month : Nat
  day : Nat
  thisWeekR : String × String := ("", "")
  lastWeekR : String × String := ("", "")
  deriving DecidableEq, Repr

/-- Day before the clock day, for the `yesterday` handler. -/
def prevDay (clk : Clock) : Nat × Nat × Nat :=
  if 2 ≤ clk.day then (clk.year, clk.month, clk.day - 1)
  else if 2 ≤ clk.month then (clk.year, clk.month - 1, daysInMonth clk.year (clk.month - 1))
  else (clk.year - 1, 12, 31)

/-! ### Time-pattern handlers (query_parser.py lines 162-267)

Each handler returns `Except PyErr (Option (String × String))`: `.error`
models a raised exception, `.ok none` the `return None` branches, and
`.ok (some (start, stop))` a resolved range. -/

/-- Model of the `quarter_starts` dict of `_parse_quarter`; a key
outside 1-4 raises `KeyError` in Python. -/
def quarter_starts (q : Nat) : Option (Nat × Nat) :=
  match q with
  | 1 => some (1, 1) | 2 => some (4, 1) | 3 => some (7, 1) | 4 => some (10, 1)
  | _ => none

/-- Model of the `quarter_ends` dict of `_parse_quarter`. -/
def quarter_ends (q : Nat) : Option (Nat × Nat) :=
  match q with
  | 1 => some (3, 31) | 2 => some (6, 30) | 3 => some (9, 30) | 4 => some (12, 31)
  | _ => none

/-- Model of `_parse_quarter` (query_parser.py lines 174-194): years
other than the current and the prior year yield `None`; otherwise the
fixed quarter boundaries are formatted. -/
def parse_quarter (clk : Clock) (year quarter : Nat) :
    Except PyErr (Option (String × String)) :=
  if year = clk.year ∨ year = clk.year - 1 then
    match quarter_starts quarter, quarter_ends quarter with
    | some (sm, sd), some (em, ed) =>
      .ok (some (toString year ++ "-" ++ pad2 sm ++ "-" ++ pad2 sd,
                 toString year ++ "-" ++ pad2 em ++ "-" ++ pad2 ed))
    | _, _ => .error .keyError
  else .ok none

/-- Model of `_parse_year_month` (lines 196-205): the year bound is
checked first; then `arrow.get` raises `ValueError` on a month outside
1-12, otherwise the whole-month span is returned. -/
def parse_year_month (clk : Clock) (year month : Nat) :
    Except PyErr (Option (String × String)) :=
  if year = clk.year ∨ year = clk.year - 1 then
    if 1 ≤ month ∧ month ≤ 12 then
      .ok (some (fmtDate year month 1, fmtDate year month (daysInMonth year month)))
    else .error .valueError
  else .ok none

/-- Model of `_parse_month` (lines 207-222): the month is tried in the
current year and, when the first day of that month lies in the future,
in the prior year. `arrow.get` raises on a month outside 1-12. -/
def parse_month (clk : Clock) (month : Nat) :
    Except PyErr (Option (String × String)) :=
  if 1 ≤ month ∧ month ≤ 12 then
    if month < clk.month ∨ (month = clk.month ∧ 1 ≤ clk.day) then
      .ok (some (fmtDate clk.year month 1, fmtDate clk.year month (daysInMonth clk.year month)))
    else
      .ok (some (fmtDate (clk.year - 1) month 1,
                 fmtDate (clk.year - 1) month (daysInMonth (clk.year - 1) month)))
  else .error .valueError

/-- Model of `_parse_today`. -/
def parse_today (clk : Clock) : Except PyErr (Option (String × String)) :=
  .ok (some (fmtDate clk.year clk.month clk.day, fmtDate clk.year clk.month clk.day))

/-- Model of `_parse_yesterday`. -/
def parse_yesterday (clk : Clock) : Except PyErr (Option (String × String)) :=
  match prevDay clk with
  | (y, m, d) => .ok (some (fmtDate y m d, fmtDate y m d))

/-- Model of `_parse_this_week`; the week boundaries come from the
external `arrow` library and are carried by the clock. -/
def parse_this_week (clk : Clock) : Except PyErr (Option (String × String)) :=
  .ok (some clk.thisWeekR)

/-- Model of `_parse_last_week`. -/
def parse_last_week (clk : Clock) : Except PyErr (Option (String × String)) :=
  .ok (some clk.lastWeekR)

/-- Model of `_parse_this_month`. -/
def parse_this_month (clk : Clock) : Except PyErr (Option (String × String)) :=
  .ok (some (fmtDate clk.year clk.month 1,
             fmtDate clk.year clk.month (daysInMonth clk.year clk.month)))

/-- Model of `_parse_last_month`. -/
def parse_last_month (clk : Clock) : Except PyErr (Option (String × String)) :=
  if 2 ≤ clk.month then
    .ok (some (fmtDate clk.year (clk.month - 1) 1,
               fmtDate clk.year (clk.month - 1) (daysInMonth clk.year (clk.month - 1))))
  else
    .ok (some (fmtDate (clk.year - 1) 12 1, fmtDate (clk.year - 1) 12 31))

/-- Model of `_parse_this_year`. -/
def parse_this_year (clk : Clock) : Except PyErr (Option (String × String)) :=
  .ok (some (toString clk.year ++ "-01-01", toString clk.year ++ "-12-31"))

/-- Model of `_parse_last_year`. -/
def parse_last_year (clk : Clock) : Except PyErr (Option (String × String)) :=
  .ok (some (toString (clk.year - 1) ++ "-01-01", toString (clk.year - 1) ++ "-12-31"))

/-- Model of `_parse_specific_year` (lines 234-239). -/
def parse_specific_year (clk : Clock) (year : Nat) :
    Except PyErr (Option (String × String)) :=
  if year = clk.year ∨ year = clk.year - 1 then
    .ok (some (toString year ++ "-01-01", toString year ++ "-12-31"))
  else .ok none

/-! ### Regex search models

`_extract_time_range` runs `re.search(pattern, query.lower())` for each
pattern of `_get_dynamic_time_patterns`, in insertion order. The three
non-literal patterns are modelled by leftmost-match scanners; the
literal patterns are substring tests. -/

/-- Whitespace class of the patterns (`\s`). -/
def isPySpace (c : Char) : Bool :=
  decide (c = ' ' ∨ c = '\t' ∨ c = '\n' ∨ c = '\r')

/-- Drop the run matched by `\s*`. -/
def skipSpaces (l : List Char) : List Char := l.dropWhile isPySpace

/-- One decimal digit. -/
def takeDigit (l : List Char) : Option (Nat × List Char) :=
  match l with
  | c :: t => if c.isDigit then some (c.toNat - 48, t) else none
  | [] => none

/-- Exactly four decimal digits (`\d{4}`), returned as the `int` of the
matched group. -/
def take4Digits (l : List Char) : Option (Nat × List Char) := do
  let (d1, r1) ← takeDigit l
  let (d2, r2) ← takeDigit r1
  let (d3, r3) ← takeDigit r2
  let (d4, r4) ← takeDigit r3
  some (d1 * 1000 + d2 * 100 + d3 * 10 + d4, r4)

/-- Attempt of the quarter pattern at one position. The pattern is the
raw source pattern with a capital `Q` and no ignore-case flag. -/
def quarterAt (l : List Char) : Option (Nat × Nat) := do
  let (y, r) ← take4Digits l
  match skipSpaces r with
  | 'Q' :: c :: _ => if '1' ≤ c ∧ c ≤ '4' then some (y, c.toNat - 48) else none
  | ['Q'] => none
  | _ => none

/-- Leftmost search for the quarter pattern. -/
def search_quarter : List Char → Option (Nat × Nat)
  | [] => none
  | c :: t =>
    match quarterAt (c :: t) with
    | some g => some g
    | none => search_quarter t

/-- Greedy `\d{1,2}\s*月` continuation: two digits are preferred, with
backtracking to one digit. -/
def monthDigitsAt (l : List Char) : Option Nat :=
  (do
    let (a, ra) ← takeDigit l
    let (b, rb) ← takeDigit ra
    match skipSpaces rb with
    | '月' :: _ => some (a * 10 + b)
    | _ => none) <|>
  (do
    let (a, ra) ← takeDigit l
    match skipSpaces ra with
    | '月' :: _ => some a
    | _ => none)

/-- Attempt of the year-month pattern at one position. -/
def yearMonthAt (l : List Char) : Option (Nat × Nat) := do
  let (y, r) ← take4Digits l
  match skipSpaces r with
  | '年' :: r2 =>
    match monthDigitsAt (skipSpaces r2) with
    | some m => some (y, m)
    | none => none
  | _ => none

/-- Leftmost search for the year-month pattern. -/
def search_year_month : List Char → Option (Nat × Nat)
  | [] => none
  | c :: t =>
    match yearMonthAt (c :: t) with
    | some g => some g
    | none => search_year_month t

/-- Leftmost search for the bare-month pattern. -/
def search_month : List Char → Option Nat
  | [] => none
  | c :: t =>
    match monthDigitsAt (c :: t) with
    | some m => some m
    | none => search_month t

/-- Chain step of `_extract_time_range`: a raised exception propagates,
a resolved range is returned, a `None` result falls through to the next
pattern. -/
def timeStep (res : Except PyErr (Option (String × String)))
    (next : Unit → Except PyErr (Option (String × String))) :
    Except PyErr (Option (String × String)) :=
  match res with
  | .error e => .error e
  | .ok (some r) => .ok (some r)
  | .ok none => next ()

/-- Model of `_extract_time_range` (query_parser.py lines 269-278) over
the pattern table of `_get_dynamic_time_patterns` (lines 136-160).

The query is lower-cased before matching, while the quarter pattern
requires a capital `Q`, so that pattern can never fire. The final two
table entries are the literal current-year and prior-year strings whose
handlers are the zero-parameter lambdas of line 157-158; the source
calls every handler with one positional argument (the match groups or
`()`), so reaching either of those entries raises `TypeError`. -/
def extract_time_range (clk : Clock) (query : String) :
    Except PyErr (Option (String × String)) :=
  let ql := pyLower query
  let p13 := fun (_ : Unit) =>
    if containsSub ql (toString (clk.year - 1)) then Except.error PyErr.typeError
    else Except.ok none
  let p12 := fun (_ : Unit) =>
    if containsSub ql (toString clk.year) then Except.error PyErr.typeError
    else p13 ()
  let p11 := fun (_ : Unit) =>
    if containsSub ql "去年" then timeStep (parse_last_year clk) p12 else p12 ()
  let p10 := fun (_ : Unit) =>
    if containsSub ql "今年" || containsSub ql "本年" then
      timeStep (parse_this_year clk) p11
    else p11 ()
  let p9 := fun (_ : Unit) =>
    if containsSub ql "上個月" then timeStep (parse_last_month clk) p10 else p10 ()
  let p8 := fun (_ : Unit) =>
    if containsSub ql "這個月" || containsSub ql "本月" then
      timeStep (parse_this_month clk) p9
    else p9 ()
  let p7 := fun (_ : Unit) =>
    if containsSub ql "上週" then timeStep (parse_last_week clk) p8 else p8 ()
  let p6 := fun (_ : Unit) =>
    if containsSub ql "這週" || containsSub ql "本週" then
      timeStep (parse_this_week clk) p7
    else p7 ()
  let p5 := fun (_ : Unit) =>
    if containsSub ql "昨天" then timeStep (parse_yesterday clk) p6 else p6 ()
  let p4 := fun (_ : Unit) =>
    if containsSub ql "今天" then timeStep (parse_today clk) p5 else p5 ()
  let p3 := fun (_ : Unit) =>
    match search_month ql.data with
    | some m => timeStep (parse_month clk m) p4
    | none => p4 ()
  let p2 := fun (_ : Unit) =>
    match search_year_month ql.data with
    | some (y, m) => timeStep (parse_year_month clk y m) p3
    | none => p3 ()
  match search_quarter ql.data with
  | some (y, q) => timeStep (parse_quarter clk y q) p2
  | none => p2 ()

/-! ### Keyword-condition expansion (query_parser.py lines 363-403) -/

/-- Word pool of `generate_flexible_keyword_conditions`: compound
keywords are split into words, and only words longer than two
characters are kept (the `all_words` set, in first-insertion order). -/
def keywordWords (keywords : List String) : List String :=
  dedupFirst (List.flatten (keywords.map (fun kw =>
    if containsSub kw " " then (pySplit kw).filter (fun w => 2 < w.length)
    else if 2 < kw.length then [kw] else [])))

/-- Model of `generate_flexible_keyword_conditions` (query_parser.py
lines 363-403): each retained word is expanded into its case variants
(as-is, upper, lower, capitalized, title-cased, deduplicated) and each
variant is embedded verbatim in a `text ~ '...'` fragment; the
variants of one word are OR-joined inside parentheses. No escaping of
any kind is applied to the embedded word. -/
def generate_flexible_keyword_conditions (keywords : List String) : List String :=
  List.flatten ((keywordWords keywords).map (fun word =>
    let word_variants := dedupFirst
      [word, pyUpper word, pyLower word, pyCapitalize word, pyTitle word]
    let variant_conditions := word_variants.map
      (fun v => "text ~ \x27" ++ v ++ "\x27")
    if variant_conditions.isEmpty then []
    else ["(" ++ String.intercalate " OR " variant_conditions ++ ")"]))

/-! ### Intent data model (query_parser.py lines 36-47) -/

/-- Model of the `time` dict carried in `entities["time_range"]` on the
primary path: keys `year`, `start`, `end`. -/
structure TimeDict where
  year : Option String := none
  startD : Option String := none
  endD : Option String := none
  deriving DecidableEq, Repr

/-- Model of the `entities` mapping of `QueryIntent`. A field holding
`none` models an absent key (and, where the source only ever tests
truthiness, a `None` value as well). The fields `is_exclusion` and
`excluded_keywords` are the keys named by the specification data model;
no code path of the repository ever writes them. -/
structure Entities where
  time_range : Option TimeDict := none
  project : Option String := none
  user_conditions : Option (List String) := none
  main_keyword_conditions : Option (List String) := none
  related_keyword_conditions : Option (List String) := none
  is_exclusion : Option Bool := none
  excluded_keywords : Option (List String) := none
  deriving DecidableEq, Repr

/-- Model of the pydantic `QueryIntent` (query_parser.py lines 36-47).
The class declares exactly the three fields below; pydantic models
reject writes to undeclared attributes and raise `AttributeError` on
reads of undeclared attributes. -/
structure QueryIntent where
  intent_type : String := "search_issues"
  confidence : ℚ := 1 / 2
  entities : Entities := {}
  deriving DecidableEq, Repr

/-- Decoded shape of the completion output that `parse` obtains from
`json.loads` on the primary path (keywords split into main and related,
an optional project, an optional time dict). The completion call and
the JSON decoding are external collaborators; a failure of either falls
back to `_basic_parse` and is outside this value. -/
structure ParsedLLM where
  main : List String := []
  related : List String := []
  project : Option String := none
  time : Option TimeDict := none
  deriving DecidableEq, Repr

/-- The three user-condition flags of a structured request
(`user_conditions.get('assignee'/'reporter'/'commenter', False)`). -/
structure UserConds where
  assignee : Bool := false
  reporter : Bool := false
  commenter : Bool := false
  deriving DecidableEq, Repr

/-- A structured request `{text, year?, user_conditions?}` as accepted
by `parse` and `process_query`. -/
structure StructuredRequest where
  text : String := ""
  year : Option String := none
  user_conditions : UserConds := {}
  deriving DecidableEq, Repr

/-- Model of the successful primary path of
`NaturalLanguageQueryParser.parse` (query_parser.py lines 331-434) on a
structured request: the decoded completion output `parsed` is the
oracle argument. A non-empty explicit year overwrites `parsed["time"]`
with the full-year span of that year (lines 351-357, with no bound on
the year). User conditions are rebuilt from the request flags: the
assignee and reporter flags each append one fragment, while the
commenter branch is commented out in the source (lines 421-428). -/
def parse_with_llm (jira_username : String) (req : StructuredRequest)
    (parsed : ParsedLLM) : QueryIntent :=
  let time : Option TimeDict :=
    match req.year with
    | some y =>
      if y ≠ "" then
        some { year := some y, startD := some (y ++ "-01-01"), endD := some (y ++ "-12-31") }
      else parsed.time
    | none => parsed.time
  let user_conds : List String :=
    (if req.user_conditions.assignee then ["assignee = \x27" ++ jira_username ++ "\x27"] else [])
      ++ (if req.user_conditions.reporter then ["reporter = \x27" ++ jira_username ++ "\x27"] else [])
  { intent_type := "search_issues"
    confidence := 9 / 10
    entities :=
      { main_keyword_conditions := some (generate_flexible_keyword_conditions parsed.main)
        related_keyword_conditions := some (generate_flexible_keyword_conditions parsed.related)
        user_conditions := some user_conds
        time_range := time
        project := parsed.project } }

/-! ### JQL compilation (jql_generator.py lines 88-150) -/

/-- Project clause of `generate_variations` (lines 97-101): added when
the key is present and truthy. -/
def project_condition (ents : Entities) : List String :=
  match ents.project with
  | some p => if p ≠ "" then ["project = \x27" ++ p ++ "\x27"] else []
  | none => []

/-- Time clause of `generate_variations` (lines 104-108): added when
the time dict and both its bounds are truthy. -/
def time_condition (ents : Entities) : List String :=
  match ents.time_range with
  | some t =>
    match t.startD, t.endD with
    | some s, some e =>
      if s ≠ "" ∧ e ≠ "" then
        ["created >= \x27" ++ s ++ "\x27 AND created <= \x27" ++ e ++ "\x27"]
      else []
    | _, _ => []
  | none => []

/-- User clause of `generate_variations` (lines 111-119): one condition
is used bare, several are parenthesised and OR-joined. -/
def user_condition_clause (ents : Entities) : List String :=
  match ents.user_conditions.getD [] with
  | [] => []
  | [c] => [c]
  | cs => ["(" ++ String.intercalate " OR " cs ++ ")"]

/-- The `base_conditions` list after lines 94-119, before the exclusion
test of line 122. -/
def build_base_conditions (ents : Entities) : List String :=
  project_condition ents ++ time_condition ents ++ user_condition_clause ents

/-- Model of the attribute read `intent.is_exclusion` performed at
jql_generator.py line 122. `QueryIntent` is a pydantic model declaring
only `intent_type`, `confidence` and `entities` (query_parser.py lines
36-47); no statement in the repository assigns an `is_exclusion`
attribute, and pydantic raises `AttributeError` on reads of undeclared
attributes (and refuses writes to them), so this read raises for every
intent value, whatever `entities` holds. -/
def intent_is_exclusion (_ : QueryIntent) : Except PyErr Bool :=
  .error .attributeError

/-- Keyword clause of lines 125-137: main and related condition
fragments concatenated, parenthesised and OR-joined. -/
def keyword_clause (ents : Entities) : List String :=
  let kc := ents.main_keyword_conditions.getD [] ++ ents.related_keyword_conditions.getD []
  if kc.isEmpty then [] else ["(" ++ String.intercalate " OR " kc ++ ")"]

/-- Final assembly of lines 139-150: the AND-joined conditions with the
ordering clause, or the permissive default clause when no condition was
collected. -/
def finalize_queries (base_conditions : List String) : List String :=
  if base_conditions.isEmpty then ["project IS NOT EMPTY ORDER BY updated DESC"]
  else [String.intercalate " AND " base_conditions ++ " ORDER BY updated DESC"]

/-- Lines 121-150 as a function of the resolved exclusion flag: an
exclusionary intent skips the keyword clause, any other intent appends
it, and the result is finalised. -/
def apply_exclusion_and_finalize (is_excl : Bool) (ents : Entities)
    (base : List String) : List String :=
  if is_excl then finalize_queries base
  else finalize_queries (base ++ keyword_clause ents)

/-- Model of `JQLGenerator.generate_variations` (jql_generator.py lines
88-150): the base conditions of lines 94-119 are built, then line 122
reads `intent.is_exclusion`; the outcome of that attribute read decides
whether the keyword clause is appended. -/
def generate_variations (intent : QueryIntent) : Except PyErr (List String) :=
  let base := build_base_conditions intent.entities
  match intent_is_exclusion intent with
  | .error e => .error e
  | .ok ex => .ok (apply_exclusion_and_finalize ex intent.entities base)

/-! ### Result reconciliation (web_interface.py lines 60-275) -/

/-- The slice of the normalised issue dict (`jira_client.py`,
`issue_data`) that the reconciliation logic reads: identifier, creation
and update timestamps, comment count and the two mutually exclusive
duration metrics. The remaining keys are carried along unchanged by the
source and are omitted here. -/
structure IssueRecord where
  key : String := ""
  summary : String := ""
  created : String := ""
  updated : String := ""
  comment_count : Nat := 0
  duration_days : Option Int := none
  processing_days : Option Int := none
  deriving DecidableEq, Repr

/-- Worker of the deduplication loop of `process_query` (web_interface
lines 67-73): `seen` is the `seen_keys` set. -/
def dedup_records_aux (seen : List String) : List IssueRecord → List IssueRecord
  | [] => []
  | r :: rest =>
    if r.key ∈ seen then dedup_records_aux seen rest
    else r :: dedup_records_aux (r.key :: seen) rest

/-- Deduplication by identifier, first occurrence kept. -/
def dedup_records (l : List IssueRecord) : List IssueRecord :=
  dedup_records_aux [] l

/-- Sort key of the longest-processing branch of `smart_sort`
(web_interface lines 82-91): `(1, processing_days)` for unresolved
records, `(0, duration_days)` for resolved ones, `(-1, 0)` otherwise. -/
def longest_sort_key (r : IssueRecord) : Int × Int :=
  match r.processing_days with
  | some p => (1, p)
  | none =>
    match r.duration_days with
    | some d => (0, d)
    | none => (-1, 0)

/-- Lexicographic order on the Python pair keys. -/
def pair_le (a b : Int × Int) : Bool :=
  decide (a.1 < b.1 ∨ (a.1 = b.1 ∧ a.2 ≤ b.2))

/-- Order in which `sorted(..., key=sort_key, reverse=True)` leaves the
longest-processing branch: `a` may come before `b` when the key of `b`
is at most the key of `a`. A stable sort under this relation is
exactly the Python descending stable sort. -/
def longest_desc (a b : IssueRecord) : Prop :=
  pair_le (longest_sort_key b) (longest_sort_key a) = true

instance : DecidableRel longest_desc :=
  fun a b => instDecidableEqBool (pair_le (longest_sort_key b) (longest_sort_key a)) true

/-- Code-point lexicographic comparison of character lists, the Python
string order used on the fixed-width timestamp strings. -/
def lexLeChars : List Char → List Char → Bool
  | [], _ => true
  | _ :: _, [] => false
  | a :: ta, b :: tb =>
    if a.val < b.val then true
    else if b.val < a.val then false
    else lexLeChars ta tb

/-- Python `≤` on strings. -/
def str_le_b (a b : String) : Bool := lexLeChars a.data b.data

/-- Descending order by creation timestamp (the `最新` branch). -/
def created_desc (a b : IssueRecord) : Prop := str_le_b b.created a.created = true

instance : DecidableRel created_desc :=
  fun a b => instDecidableEqBool (str_le_b b.created a.created) true

/-- Descending order by comment count (the `留言數` branch). -/
def comment_desc (a b : IssueRecord) : Prop := b.comment_count ≤ a.comment_count

instance : DecidableRel comment_desc :=
  fun a b => Nat.decLe b.comment_count a.comment_count

/-- Descending order by update timestamp (the default branch). -/
def updated_desc (a b : IssueRecord) : Prop := str_le_b b.updated a.updated = true

instance : DecidableRel updated_desc :=
  fun a b => instDecidableEqBool (str_le_b b.updated a.updated) true

/-- Trigger phrases of the longest-processing branch (web_interface
line 80). -/
def longest_trigger (q : String) : Bool :=
  ["最久", "處理最久", "持續最久", "最長時間", "最長"].any
    (fun t => containsSub (pyLower q) t)

/-- Trigger phrases of the newest branch (line 96). -/
def newest_trigger (q : String) : Bool :=
  ["最新", "最近", "新建"].any (fun t => containsSub (pyLower q) t)

/-- Trigger phrases of the comment-volume branch (line 101). -/
def comment_trigger (q : String) : Bool :=
  ["留言數", "評論數", "討論", "留言", "評論"].any (fun t => containsSub (pyLower q) t)

/-- Model of `smart_sort` (web_interface lines 76-111). Python `sorted`
is a stable sort; `List.insertionSort` under the matching `key of b ≤
key of a` relation computes the same list. -/
def smart_sort (query_text : String) (results : List IssueRecord) : List IssueRecord :=
  if longest_trigger query_text then List.insertionSort longest_desc results
  else if newest_trigger query_text then List.insertionSort created_desc results
  else if comment_trigger query_text then List.insertionSort comment_desc results
  else List.insertionSort updated_desc results

/-! ### LLM relevance pass (web_interface.py lines 115-267) -/

/-- One entry of the `relevant_tasks` array decoded from the completion
output. -/
structure RelTask where
  key : String := ""
  relevance_score : Option ℚ := none
  reason : String := ""
  deriving DecidableEq, Repr

/-- Outcome of the completion call and of the JSON decoding of its
output, the external steps of the relevance pass. `noContent` covers a
failed invocation, a result without a `content` attribute and an empty
content string (lines 228-230); `invalidJson` a `json.loads` failure
(lines 259-262); `nonObjectJson` a decode to a non-dict, whose
`.get` then raises and is caught by the outer handler (lines 263-267);
`relevantTasks` a decoded object with its `relevant_tasks` list. -/
inductive CompletionOutcome where
  | noContent
  | invalidJson
  | nonObjectJson
  | relevantTasks (tasks : List RelTask)
  deriving DecidableEq, Repr

/-- The `task_relevance` dict comprehension (line 244): tasks without a
score are skipped; a repeated key keeps the last entry. -/
def rel_score_map (tasks : List RelTask) : List (String × ℚ) :=
  tasks.filterMap (fun t => t.relevance_score.map (fun s => (t.key, s)))

/-- Dict lookup with default (`task_relevance.get(key, 0)`): the last
binding of a key wins. -/
def dict_get (m : List (String × ℚ)) (k : String) (dflt : ℚ) : ℚ :=
  match m.reverse.find? (fun p => p.1 == k) with
  | some p => p.2
  | none => dflt

/-- Dict membership (`key in task_relevance`). -/
def dict_mem (m : List (String × ℚ)) (k : String) : Bool :=
  (m.find? (fun p => p.1 == k)).isSome

/-- Descending order by relevance score, used by the re-sort of line
249 (`list.sort` is stable, as in `smart_sort`). -/
def rel_desc (m : List (String × ℚ)) (a b : IssueRecord) : Prop :=
  dict_get m b.key 0 ≤ dict_get m a.key 0

instance (m : List (String × ℚ)) : DecidableRel (rel_desc m) :=
  fun a b => inferInstanceAs (Decidable (dict_get m b.key 0 ≤ dict_get m a.key 0))

/-- Model of the relevance pass of `process_query` (web_interface lines
115-267) as a function of the already-sorted record list and of the
completion outcome: every failure outcome and an empty `relevant_tasks`
list keep the list unchanged; a non-empty task list keeps the records
whose score exceeds 0.3, re-sorted by score descending. -/
def relevance_pass (sorted_results : List IssueRecord)
    (outcome : CompletionOutcome) : List IssueRecord :=
  match outcome with
  | .noContent => sorted_results
  | .invalidJson => sorted_results
  | .nonObjectJson => sorted_results
  | .relevantTasks tasks =>
    if tasks.isEmpty then sorted_results
    else
      let m := rel_score_map tasks
      let filtered := sorted_results.filter
        (fun r => dict_mem m r.key && decide ((3 : ℚ) / 10 < dict_get m r.key 0))
      List.insertionSort (rel_desc m) filtered

/-- The post-execution pipeline of `process_query`: flatten the result
sets in execution order, deduplicate keeping first occurrences, apply
the selected sort, then the relevance pass. -/
def reconcile (query_text : String) (result_sets : List (List IssueRecord))
    (outcome : CompletionOutcome) : List IssueRecord :=
  relevance_pass (smart_sort query_text (dedup_records result_sets.flatten)) outcome

/-! ### Supporting lemmas -/

/-- Totality of the pair order. -/
theorem pair_le_total (a b : Int × Int) : pair_le a b = true ∨ pair_le b a = true := by
  rcases a with ⟨a1, a2⟩
  rcases b with ⟨b1, b2⟩
  simp only [pair_le, decide_eq_true_eq]
  omega

/-- Transitivity of the pair order. -/
theorem pair_le_trans (a b c : Int × Int) (h1 : pair_le a b = true)
    (h2 : pair_le b c = true) : pair_le a c = true := by
  rcases a with ⟨a1, a2⟩
  rcases b with ⟨b1, b2⟩
  rcases c with ⟨c1, c2⟩
  simp only [pair_le, decide_eq_true_eq] at h1 h2 ⊢
  omega

instance : IsTotal IssueRecord longest_desc :=
  ⟨fun a b => pair_le_total (longest_sort_key b) (longest_sort_key a)⟩

instance : IsTrans IssueRecord longest_desc :=
  ⟨fun _ _ _ hab hbc => pair_le_trans _ _ _ hbc hab⟩

/-- Once an identifier is in `seen_keys`, the deduplication loop never
emits another record with it. -/
theorem dedup_records_aux_filter_mem (k : String) :
    ∀ (seen : List String) (l : List IssueRecord), k ∈ seen →
      (dedup_records_aux seen l).filter (fun r => r.key == k) = [] := by
  intro seen l
  induction l generalizing seen with
  | nil => intro _; rfl
  | cons r t ih =>
    intro h
    unfold dedup_records_aux
    by_cases hm : r.key ∈ seen
    · rw [if_pos hm]
      exact ih seen h
    · rw [if_neg hm]
      have hrk : (r.key == k) = false := by
        refine beq_eq_false_iff_ne.mpr ?_
        intro he
        exact hm (he ▸ h)
      rw [List.filter_cons, hrk]
      simp only [Bool.false_eq_true, if_false]
      exact ih (r.key :: seen) (List.mem_cons_of_mem _ h)

/-- For an identifier not yet seen, the deduplicated output restricted
to that identifier is exactly the first matching input record. -/
theorem dedup_records_aux_filter_not_mem (k : String) :
    ∀ (seen : List String) (l : List IssueRecord), k ∉ seen →
      (dedup_records_aux seen l).filter (fun r => r.key == k) =
        (l.find? (fun r => r.key == k)).toList := by
  intro seen l
  induction l generalizing seen with
  | nil => intro _; rfl
  | cons r t ih =>
    intro h
    unfold dedup_records_aux
    by_cases hm : r.key ∈ seen
    · rw [if_pos hm]
      have hrk : (r.key == k) = false := by
        refine beq_eq_false_iff_ne.mpr ?_
        intro he
        exact h (he ▸ hm)
      rw [List.find?_cons, hrk]
      exact ih seen h
    · rw [if_neg hm]
      by_cases hk : (r.key == k) = true
      · rw [List.filter_cons, hk, List.find?_cons, hk]
        simp only [if_true]
        have hkmem : k ∈ r.key :: seen := by
          have : r.key = k := by simpa using hk
          exact this ▸ List.mem_cons_self _ _
        rw [dedup_records_aux_filter_mem k (r.key :: seen) t hkmem]
        rfl
      · have hk2 : (r.key == k) = false := by simpa using hk
        rw [List.filter_cons, hk2, List.find?_cons, hk2]
        simp only [Bool.false_eq_true, if_false]
        refine ih (r.key :: seen) ?_
        intro hin
        rcases List.mem_cons.mp hin with he | hs
        · exact hk (by simpa using he.symm)
        · exact h hs

/-! ### Concrete fixtures -/

/-- Clock with current year 2025 (mid-June). -/
def clk2025 : Clock := { year := 2025, month := 6, day := 15 }

/-- Clock with current year 2026 (for the prior-year case). -/
def clk2026 : Clock := { year := 2026, month := 3, day := 10 }

/-- Intent whose entities carry the exclusion flag of the data model
together with a populated keyword condition. -/
def exclusion_intent : QueryIntent :=
  { intent_type := "search_issues"
    confidence := 9 / 10
    entities :=
      { main_keyword_conditions := some ["(text ~ \x27CHART\x27 OR text ~ \x27chart\x27)"]
        is_exclusion := some true
        excluded_keywords := some ["排行榜"] } }

/-- Unresolved record, thirty days in processing. -/
def rec_unresolved30 : IssueRecord := { key := "UNRES-30", processing_days := some 30 }

/-- Resolved record that took one hundred days. -/
def rec_resolved100 : IssueRecord := { key := "RES-100", duration_days := some 100 }

/-- First-executed record of a duplicated identifier. -/
def dup_first : IssueRecord := { key := "KFC-1", summary := "first", comment_count := 2 }

/-- Later record carrying the same identifier with different fields. -/
def dup_second : IssueRecord := { key := "KFC-1", summary := "second", comment_count := 9 }

/-! ### Claim theorems -/

/-- Claim C1. The claim states that `_extract_time_range` resolves a
query containing `2025 Q1` to `("2025-01-01","2025-03-31")` when the
current year is 2025 or 2026. On the code this fails: the query is
lower-cased while the quarter pattern requires a capital `Q`, so the
quarter rule never matches; the literal current-or-prior-year pattern
then matches `2025` and its handler, a lambda of zero parameters,
is called with one positional argument, raising `TypeError`. The last
two conjuncts evaluate `_parse_quarter` itself, whose boundaries agree
with the claim but which is unreachable from `_extract_time_range`. -/
theorem c1_quarter_time_extraction :
    extract_time_range clk2025 "我 2025 Q1 的 Jira 工作記錄" = .error .typeError ∧
    extract_time_range clk2026 "我 2025 Q1 的 Jira 工作記錄" = .error .typeError ∧
    parse_quarter clk2025 2025 1 = .ok (some ("2025-01-01", "2025-03-31")) ∧
    parse_quarter clk2026 2025 4 = .ok (some ("2025-10-01", "2025-12-31")) :=
  ⟨rfl, rfl, rfl, rfl⟩

/-- Claim C2. The claim states that an intent with the exclusion flag
set compiles to a query without keyword conditions. On the code,
`generate_variations` reads the undeclared attribute `is_exclusion` of
the pydantic `QueryIntent` and raises `AttributeError` before emitting
any query, even for an intent whose entities carry `is_exclusion=True`
and populated keyword conditions (first conjunct). The second conjunct
evaluates the remainder of the function under a true flag: the intended
keyword-free output exists in the source but is unreachable. -/
theorem c2_exclusion_flag_unreachable :
    generate_variations exclusion_intent = .error .attributeError ∧
    apply_exclusion_and_finalize true exclusion_intent.entities
        (build_base_conditions exclusion_intent.entities) =
      ["project IS NOT EMPTY ORDER BY updated DESC"] :=
  ⟨rfl, rfl⟩

/-- Claim C3. The claim states that `generate_variations` returns a
list of query strings for every `QueryIntent` without raising. On the
code the opposite holds: for every intent whatsoever — in particular
every intent produced by `parse` — the attribute read of line 122
raises `AttributeError`, so the function never returns. -/
theorem c3_generate_variations_always_raises (intent : QueryIntent) :
    generate_variations intent = .error .attributeError :=
  rfl

/-- Claim C4. The claim states that every emitted query is well-formed,
with embedded single quotes in literals escaped or rejected. On the
code, the keyword expansion embeds a quoted word verbatim: the word
`1'2` yields the fragment `(text ~ '1'2')`, whose odd number of quote
characters cannot be split into correctly single-quoted literals
(second conjunct); nothing escapes or rejects the embedded quote.
Moreover the compiler raises before returning any query at all (third
conjunct), so the well-formedness guarantee has no instance. -/
theorem c4_unescaped_quote_literal :
    generate_flexible_keyword_conditions ["1\x272"] = ["(text ~ \x271\x272\x27)"] ∧
    ("(text ~ \x271\x272\x27)").data.count '\x27' % 2 = 1 ∧
    generate_variations
        { entities :=
            { main_keyword_conditions :=
                some (generate_flexible_keyword_conditions ["1\x272"]) } } =
      .error .attributeError :=
  ⟨rfl, by decide, rfl⟩

/-- Claim C5, counterexample. The claim states that no path of the
pipeline ever resolves a year other than the current or prior year to a
time range. On the primary path of `parse`, a caller-supplied explicit
year is embedded verbatim (query_parser.py lines 351-357): with current
year 2025, the year 2019 is neither current nor prior, yet the parsed
intent carries the full 2019 span. -/
theorem c5_explicit_year_override :
    ((2019 : Nat) ≠ clk2025.year ∧ (2019 : Nat) ≠ clk2025.year - 1) ∧
    (parse_with_llm "user"
        { text := "2019 的工作", year := some "2019", user_conditions := {} }
        {}).entities.time_range =
      some { year := some "2019", startD := some "2019-01-01", endD := some "2019-12-31" } :=
  ⟨by decide, rfl⟩

/-- Claim C5, amended. The text-level time resolvers do enforce the
bound: `_parse_quarter`, `_parse_year_month` and `_parse_specific_year`
return no result for any year other than the current or prior year.
The primary path, however, embeds any non-empty explicit year parameter
verbatim as a full-year time range, with no bound (last conjunct). -/
theorem c5_year_bound_amended :
    (∀ (clk : Clock) (y q : Nat), y ≠ clk.year → y ≠ clk.year - 1 →
      parse_quarter clk y q = .ok none) ∧
    (∀ (clk : Clock) (y m : Nat), y ≠ clk.year → y ≠ clk.year - 1 →
      parse_year_month clk y m = .ok none) ∧
    (∀ (clk : Clock) (y : Nat), y ≠ clk.year → y ≠ clk.year - 1 →
      parse_specific_year clk y = .ok none) ∧
    (∀ (uname : String) (req : StructuredRequest) (p : ParsedLLM) (ys : String),
      req.year = some ys → ys ≠ "" →
      (parse_with_llm uname req p).entities.time_range =
        some { year := some ys, startD := some (ys ++ "-01-01"),
               endD := some (ys ++ "-12-31") }) := by
  refine ⟨?_, ?_, ?_, ?_⟩
  · intro clk y q h1 h2
    unfold parse_quarter
    rw [if_neg]
    rintro (h | h)
    · exact h1 h
    · exact h2 h
  · intro clk y m h1 h2
    unfold parse_year_month
    rw [if_neg]
    rintro (h | h)
    · exact h1 h
    · exact h2 h
  · intro clk y h1 h2
    unfold parse_specific_year
    rw [if_neg]
    rintro (h | h)
    · exact h1 h
    · exact h2 h
  · intro uname req p ys hy hne
    unfold parse_with_llm
    rw [hy]
    simp only [ne_eq, hne, not_false_eq_true, if_true]

/-- Witness for `c5_year_bound_amended` at concrete inputs. -/
theorem c5_year_bound_witness :
    parse_quarter clk2025 2019 1 = .ok none ∧
    parse_year_month clk2025 2019 5 = .ok none ∧
    parse_specific_year clk2025 2019 = .ok none ∧
    (parse_with_llm "user"
        { text := "okr 工作", year := some "2024", user_conditions := {} }
        {}).entities.time_range =
      some { year := some "2024", startD := some ("2024" ++ "-01-01"),
             endD := some ("2024" ++ "-12-31") } :=
  ⟨c5_year_bound_amended.1 clk2025 2019 1 (by decide) (by decide),
   c5_year_bound_amended.2.1 clk2025 2019 5 (by decide) (by decide),
   c5_year_bound_amended.2.2.1 clk2025 2019 (by decide) (by decide),
   c5_year_bound_amended.2.2.2 "user"
     { text := "okr 工作", year := some "2024", user_conditions := {} } {} "2024"
     rfl (by decide)⟩

/-- Claim C6. The claim states that an intent producing no condition
compiles to the permissive default clause and that the compiler always
returns exactly one query string. On the code, `generate_variations`
raises `AttributeError` on the empty-entities intent before reaching
the default clause (first conjunct); the default clause of lines
139-150 does produce the documented string, but only in unreachable
code (second conjunct). -/
theorem c6_default_clause_unreachable :
    generate_variations ({} : QueryIntent) = .error .attributeError ∧
    apply_exclusion_and_finalize false ({} : Entities) (build_base_conditions {}) =
      ["project IS NOT EMPTY ORDER BY updated DESC"] :=
  ⟨rfl, rfl⟩

/-- Claim C7. A relevance pass receiving no content, undecodable
output, a decoded non-object, or an empty `relevant_tasks` list leaves
the reconciled list exactly equal to the pre-pass sorted and
deduplicated list, in membership and order. -/
theorem c7_relevance_pass_fallback (q : String) (sets : List (List IssueRecord)) :
    reconcile q sets .noContent = smart_sort q (dedup_records sets.flatten) ∧
    reconcile q sets .invalidJson = smart_sort q (dedup_records sets.flatten) ∧
    reconcile q sets .nonObjectJson = smart_sort q (dedup_records sets.flatten) ∧
    reconcile q sets (.relevantTasks []) = smart_sort q (dedup_records sets.flatten) :=
  ⟨rfl, rfl, rfl, rfl⟩

/-- Claim C8. When the query text carries a longest-processing trigger
phrase, `smart_sort` permutes the records into an order sorted by
`longest_desc`: since the key of an unresolved record is `(1, _)`, of a
resolved one `(0, _)` and of a record with neither metric `(-1, 0)`,
`longest_desc`-sortedness places every unresolved record above every
resolved one, each group descending by its day count, and metric-less
records last. -/
theorem c8_longest_processing_sort (q : String) (rs : List IssueRecord)
    (h : longest_trigger q = true) :
    List.Perm (smart_sort q rs) rs ∧
    List.Sorted longest_desc (smart_sort q rs) := by
  unfold smart_sort
  rw [if_pos h]
  exact ⟨List.perm_insertionSort _ _, List.sorted_insertionSort _ _⟩

/-- Witness for `c8_longest_processing_sort`: under the trigger phrase,
the unresolved record with thirty processing days is placed above the
resolved record with one hundred duration days. -/
theorem c8_longest_processing_sort_witness :
    longest_trigger "處理最久的任務" = true ∧
    smart_sort "處理最久的任務" [rec_resolved100, rec_unresolved30] =
      [rec_unresolved30, rec_resolved100] ∧
    (List.Perm (smart_sort "處理最久的任務" [rec_resolved100, rec_unresolved30])
        [rec_resolved100, rec_unresolved30] ∧
      List.Sorted longest_desc
        (smart_sort "處理最久的任務" [rec_resolved100, rec_unresolved30])) :=
  ⟨rfl, rfl, c8_longest_processing_sort _ _ rfl⟩

/-- Claim C9. Whenever an identifier occurs at least twice across the
flattened result sets, the deduplicated list contains exactly one
record with that identifier, and that record is the first occurrence in
query-execution order, fields included. -/
theorem c9_dedup_keeps_first (result_sets : List (List IssueRecord)) (k : String)
    (h : 2 ≤ result_sets.flatten.countP (fun r => r.key == k)) :
    (dedup_records result_sets.flatten).countP (fun r => r.key == k) = 1 ∧
    (dedup_records result_sets.flatten).filter (fun r => r.key == k) =
      (result_sets.flatten.find? (fun r => r.key == k)).toList := by
  have hfil : (dedup_records result_sets.flatten).filter (fun r => r.key == k) =
      (result_sets.flatten.find? (fun r => r.key == k)).toList :=
    dedup_records_aux_filter_not_mem k [] result_sets.flatten (by simp)
  refine ⟨?_, hfil⟩
  rw [List.countP_eq_length_filter, hfil]
  have hpos : 0 < result_sets.flatten.countP (fun r => r.key == k) := by omega
  have hex : ∃ x ∈ result_sets.flatten, (x.key == k) = true := List.countP_pos_iff.mp hpos
  have hsome : (result_sets.flatten.find? (fun r => r.key == k)).isSome :=
    List.find?_isSome.mpr hex
  rcases Option.isSome_iff_exists.mp hsome with ⟨x, hx⟩
  rw [hx]
  rfl

/-- Witness for `c9_dedup_keeps_first`: two result sets sharing the
identifier `KFC-1`; the reconciled list keeps exactly the first-seen
record with its fields. -/
theorem c9_dedup_keeps_first_witness :
    2 ≤ ([[dup_first], [dup_second]] : List (List IssueRecord)).flatten.countP
        (fun r => r.key == "KFC-1") ∧
    ((dedup_records ([[dup_first], [dup_second]] : List (List IssueRecord)).flatten).countP
        (fun r => r.key == "KFC-1") = 1 ∧
      (dedup_records ([[dup_first], [dup_second]] : List (List IssueRecord)).flatten).filter
          (fun r => r.key == "KFC-1") =
        (([[dup_first], [dup_second]] : List (List IssueRecord)).flatten.find?
            (fun r => r.key == "KFC-1")).toList) :=
  ⟨by decide, c9_dedup_keeps_first [[dup_first], [dup_second]] "KFC-1" (by decide)⟩

/-- Claim C10. For every structured request whose user-condition flags
set only `commenter`, the parsed intent carries an empty
`user_conditions` entity, the user clause of the compiler is empty, and
the base conditions reduce to the project and time clauses alone: the
commenter flag contributes no condition anywhere (its branch is
commented out in `parse`, and `commentedBy` never reaches the
compiler). -/
theorem c10_commenter_flag_inert (uname text : String) (yr : Option String)
    (p : ParsedLLM) :
    (parse_with_llm uname
        { text := text, year := yr,
          user_conditions := { assignee := false, reporter := false, commenter := true } }
        p).entities.user_conditions = some [] ∧
    user_condition_clause (parse_with_llm uname
        { text := text, year := yr,
          user_conditions := { assignee := false, reporter := false, commenter := true } }
        p).entities = [] ∧
    build_base_conditions (parse_with_llm uname
        { text := text, year := yr,
          user_conditions := { assignee := false, reporter := false, commenter := true } }
        p).entities =
      project_condition (parse_with_llm uname
        { text := text, year := yr,
          user_conditions := { assignee := false, reporter := false, commenter := true } }
        p).entities ++
      time_condition (parse_with_llm uname
        { text := text, year := yr,
          user_conditions := { assignee := false, reporter := false, commenter := true } }
        p).entities := by
  refine ⟨rfl, rfl, ?_⟩
  unfold build_base_conditions
  rw [show user_condition_clause (parse_with_llm uname
      { text := text, year := yr,
        user_conditions := { assignee := false, reporter := false, commenter := true } }
      p).entities = [] from rfl]
  rw [List.append_nil]
